import Mathlib

/-!
Verification of the floating train-timer widget
(`src/static/js/floating_timer.js`) against its natural-language design
document.

The JavaScript source is shallowly embedded below.  Timestamps and second
counts are JavaScript numbers that are always integral in this code
(`Date.now()` milliseconds, whole seconds), so they are modelled as `Int`.
`null`/`undefined`-able numeric fields become `Option Int`; JavaScript
truthiness tests on them (`if (!endAt)`, `record.updatedAt && …`) are
modelled by `jsTruthyOpt`, which is false for `none` and for `some 0`,
exactly as `null`/`undefined`/`0` are falsy.  Tab identifiers are strings;
a missing `tabId` field is modelled as `""` (both are falsy and neither can
equal a real `tab_…` identifier).  `localStorage` reads/writes are modelled
by passing the stored value in and returning the new value; DOM rendering,
audio and toast side effects are irrelevant to the properties below and are
dropped, while the "finished" notification is modelled as a Boolean event
flag in `StepResult`.
-/

namespace FT

/-- Millisecond cadence of the UI poll (`TICK_MS`). -/
def TICK_MS : Int := 250

/-- Lease time-to-live in milliseconds (`ACTIVE_TTL_MS`). -/
def ACTIVE_TTL_MS : Int := 15000

/-- Lease heartbeat cadence in milliseconds (`ACTIVE_PING_MS`). -/
def ACTIVE_PING_MS : Int := 5000

/-- Minimum gap between read-only re-checks inside `tick` (`READONLY_CHECK_TICK_MS`). -/
def READONLY_CHECK_TICK_MS : Int := 1000

/-- Hard cap of 4 hours in seconds (`MAX_SECONDS`). -/
def MAX_SECONDS : Int := 4 * 60 * 60

/-- JavaScript truthiness of a nullable number: `null`/`undefined` and `0`
are falsy, every other integer is truthy. -/
def jsTruthyOpt : Option Int → Bool
  | none => false
  | some v => v != 0

/-- JavaScript truthiness of a nullable string key (`!this.currentKey`):
`null` and the empty string are falsy. -/
def keyTruthy : Option String → Bool
  | none => false
  | some s => s != ""

/-- Model of `Math.ceil(ms / 1000)` on an integer number of milliseconds.
`Int.ediv` rounds toward negative infinity for a positive divisor, so the
ceiling is the negated floor of the negation. -/
def jsCeilDiv1000 (ms : Int) : Int := -((-ms) / 1000)

/-- Model of `Math.floor(ms / 1000)` on an integer number of milliseconds
(`/` on `Int` is Euclidean division, which floors for a positive
divisor). -/
def jsFloorDiv1000 (ms : Int) : Int := ms / 1000

/-- Source function `clampInt(value, lo, hi)`: a missing / non-numeric
value (modelled as `none`) is coerced to `0`, then the result is clamped
into `[lo, hi]`.  (The source's `Math.trunc` is the identity on the
integral values modelled here.) -/
def clampInt (value : Option Int) (lo hi : Int) : Int :=
  max lo (min hi (value.getD 0))

/-- Source function `computeRemainingFromEndAt(endAt)`: `0` for a falsy deadline, otherwise
`Math.max(0, Math.ceil((endAt - now) / 1000))`.  The ambient `nowMs()` is
an explicit parameter. -/
def computeRemainingFromEndAt (endAt : Option Int) (now : Int) : Int :=
  if jsTruthyOpt endAt then max 0 (jsCeilDiv1000 (endAt.getD 0 - now)) else 0

/-- The overtime branch of `tick` (and `render`):
`-Math.max(0, Math.floor((now - (overtimeStartAt || now)) / 1000))`,
the elapsed overtime reported as a negative remaining value. -/
def overtimeRemaining (overtimeStartAt : Option Int) (now : Int) : Int :=
  -(max 0 (jsFloorDiv1000
      (now - (if jsTruthyOpt overtimeStartAt then overtimeStartAt.getD 0 else now))))

/-- Remaining time as the specification document words it for the countdown
branch: `max(0, round((deadlineAt - now)/1000))`.  Mathlib's `round` on `ℚ`
is `⌊x + 1/2⌋`, which agrees with JavaScript's `Math.round`.  This
definition follows the spec's words and exists only to be compared with
`computeRemainingFromEndAt`, which is translated from the source. -/
def specRemainingRound (deadlineAt now : Int) : Int :=
  max 0 (round (((deadlineAt : ℚ) - now) / 1000))

/-- The cross-tab lease record stored under `timer:active:<key>`
(see `updateActiveRecord`).  A missing `tabId` field is modelled as `""`,
a missing `updatedAt` as `none`. -/
structure LeaseRecord where
  tabId : String
  endAt : Option Int
  overtime : Bool
  overtimeStartAt : Option Int
  updatedAt : Option Int
deriving Repr, DecidableEq

/-- The test `record.updatedAt && nowMs() - record.updatedAt > ACTIVE_TTL_MS`:
the staleness test inside `checkReadOnly`.  A falsy (missing or zero)
`updatedAt` short-circuits the conjunction, so such a record is never
stale. -/
def leaseIsStale (r : LeaseRecord) (now : Int) : Bool :=
  jsTruthyOpt r.updatedAt && decide (ACTIVE_TTL_MS < now - r.updatedAt.getD 0)

/-- The read-only verdict of `FloatingTimer.checkReadOnly` given the lease
record read back from storage: no record or a stale record clears the
read-only flag; otherwise the flag is `record.tabId && record.tabId !==
this.tabId` (a falsy assigned value counts as `false`). -/
def checkReadOnly (record : Option LeaseRecord) (selfTab : String) (now : Int) : Bool :=
  match record with
  | none => false
  | some r =>
    if leaseIsStale r now then false
    else (r.tabId != "") && (r.tabId != selfTab)

/-- The storage effect of `FloatingTimer.checkReadOnly`: a stale record is
removed when it is owned by the checking tab itself. -/
def checkReadOnlyLease (record : Option LeaseRecord) (selfTab : String) (now : Int) :
    Option LeaseRecord :=
  match record with
  | none => none
  | some r => if leaseIsStale r now && r.tabId == selfTab then none else some r

/-- Source function `releaseActiveRecord`: the lease slot is cleared only when the stored
record is owned by this tab (`record.tabId === this.tabId`). -/
def releaseLease (record : Option LeaseRecord) (selfTab : String) : Option LeaseRecord :=
  match record with
  | none => none
  | some r => if r.tabId == selfTab then none else some r

/-- The in-memory per-key timer state (`this.state`).  `view` keeps the
source's string values `"compact"` / `"expanded"`; `endAt` and
`overtimeStartAt` are nullable timestamps. -/
structure TimerState where
  remaining : Int
  isRunning : Bool
  endAt : Option Int
  defaultSeconds : Int
  alarmEnabled : Bool
  savedAt : Int
  minimized : Bool
  view : String
  overtime : Bool
  overtimeStartAt : Option Int
deriving Repr, DecidableEq

/-- Source function `buildInitialState(defaultSeconds)` (its `savedAt: nowMs()` takes the
ambient clock as a parameter). -/
def buildInitialState (defaultSeconds : Int) (now : Int) : TimerState :=
  { remaining := defaultSeconds
    isRunning := false
    endAt := none
    defaultSeconds := defaultSeconds
    alarmEnabled := true
    savedAt := now
    minimized := false
    view := "compact"
    overtime := false
    overtimeStartAt := none }

/-- A successfully parsed JSON object found under the timer key, before
`loadState` validates it.  `none` in a numeric field models a missing or
non-numeric (`NaN` after `Number(…)`) field; `none` in `view` models any
value other than a string.  Boolean fields carry the result of the
source's own coercions (`Boolean(obj.isRunning)`,
`obj.alarmEnabled === false ? false : true`). -/
structure RawTimerRecord where
  remaining : Option Int
  defaultSeconds : Option Int
  isRunning : Bool
  endAt : Option Int
  alarmEnabled : Bool
  minimized : Bool
  view : Option String
  overtime : Bool
  overtimeStartAt : Option Int
  savedAt : Option Int
deriving Repr, DecidableEq

/-- Source method `FloatingTimer.loadState(key)`.  The `localStorage.getItem` /
`safeParseJson` stage is modelled by the `Option RawTimerRecord` argument:
`none` stands for a missing record, an unparseable record (`safeParseJson`
returned `null`), a non-object value, or a storage read that threw — all
of which make the source return `null`.  A parsed object is validated
field by field exactly as in the source. -/
def loadState (raw : Option RawTimerRecord) (now : Int) : Option TimerState :=
  match raw with
  | none => none
  | some obj =>
    some
      { remaining := clampInt obj.remaining (-MAX_SECONDS) MAX_SECONDS
        isRunning := obj.isRunning
        endAt := if jsTruthyOpt obj.endAt then obj.endAt else none
        defaultSeconds := clampInt obj.defaultSeconds 60 MAX_SECONDS
        alarmEnabled := obj.alarmEnabled
        savedAt := match obj.savedAt with
          | some v => if v != 0 then v else now
          | none => now
        minimized := obj.minimized
        view := if obj.view == some ("expanded") then ("expanded") else ("compact")
        overtime := obj.overtime
        overtimeStartAt := if jsTruthyOpt obj.overtimeStartAt then obj.overtimeStartAt else none }

/-- The reconfiguration block of `configureFromPage` (the Store's
`reconcile` contract): while neither running nor in overtime, a changed
target updates `defaultSeconds`, and `remaining` snaps to the new default
when it is falsy (`!this.state.remaining`, i.e. `0` here) or still equal
to the previous default. -/
def reconcile (st : TimerState) (newDefault : Int) : TimerState :=
  if !st.isRunning && !st.overtime then
    if st.defaultSeconds != newDefault then
      let prevDefault := st.defaultSeconds
      let st1 := { st with defaultSeconds := newDefault }
      if st1.remaining == 0 || st1.remaining == prevDefault then
        { st1 with remaining := newDefault }
      else st1
    else st
  else st

/-- The per-tab mutable fields of the `FloatingTimer` instance that the
timer logic reads and writes: the selected key, the in-memory state, the
read-only flag, whether the poll interval is installed
(`this.tickHandle !== null`), and the two rate-limit timestamps. -/
structure TabState where
  currentKey : Option String
  state : Option TimerState
  readonly : Bool
  ticking : Bool
  lastReadonlyTickCheck : Int
  lastActivePing : Int
deriving Repr, DecidableEq

/-- Result of one method call: the updated tab, the lease slot after the
call's storage effects, and whether the `finish` routine ran (dispatching
the `train:timerFinished` notification). -/
structure StepResult where
  tab : TabState
  lease : Option LeaseRecord
  finished : Bool
deriving Repr, DecidableEq

/-- Source method `FloatingTimer.checkReadOnly` at the tab level: with a falsy
`currentKey` the method returns without touching anything; otherwise it
recomputes `this.readonly` from the lease record and clears a stale record
that this tab itself owns. -/
def checkReadOnlyTab (tab : TabState) (record : Option LeaseRecord) (selfTab : String)
    (now : Int) : TabState × Option LeaseRecord :=
  if !keyTruthy tab.currentKey then (tab, record)
  else ({ tab with readonly := checkReadOnly record selfTab now },
        checkReadOnlyLease record selfTab now)

/-- Source method `FloatingTimer.updateActiveRecord(force)`: while running, not
read-only and holding a truthy key, write a fresh lease owned by this tab,
rate-limited to one write per `ACTIVE_PING_MS` unless forced.  Returns the
lease slot and the new `lastActivePing`. -/
def updateActive (tab : TabState) (record : Option LeaseRecord) (selfTab : String)
    (now : Int) (force : Bool) : Option LeaseRecord × Int :=
  match tab.state with
  | none => (record, tab.lastActivePing)
  | some st =>
    if !keyTruthy tab.currentKey || !st.isRunning || tab.readonly then
      (record, tab.lastActivePing)
    else if !force && now - tab.lastActivePing < ACTIVE_PING_MS then
      (record, tab.lastActivePing)
    else
      (some { tabId := selfTab, endAt := st.endAt, overtime := st.overtime,
              overtimeStartAt := st.overtimeStartAt, updatedAt := some now }, now)

/-- Source method `FloatingTimer.finish` with its `playAlarm` option: stop the poll, clear the running
flags, pin `remaining` to `0`, release the lease (only if owned), and
raise the finished notification.  Alarm and toast are presentation-only
and are not modelled. -/
def finishTimer (tab : TabState) (record : Option LeaseRecord) (selfTab : String) :
    StepResult :=
  match tab.state with
  | none => ⟨tab, record, false⟩
  | some st =>
    let st1 := { st with
      isRunning := false, endAt := none, remaining := 0,
      overtime := false, overtimeStartAt := none }
    let record1 := if keyTruthy tab.currentKey then releaseLease record selfTab else record
    ⟨{ tab with state := some st1, ticking := false }, record1, true⟩

/-- Source method `FloatingTimer.tick()`: bail out unless running; re-check read-only at
most once per `READONLY_CHECK_TICK_MS` (a zero `lastReadonlyTickCheck` is
falsy and forces a check); do nothing while read-only.  In overtime,
refresh `remaining` from `overtimeRemaining` and heartbeat the lease.
Otherwise, with a truthy deadline, refresh `remaining` from the clock and
either finish (at zero) or heartbeat the lease. -/
def tick (tab : TabState) (record : Option LeaseRecord) (selfTab : String) (now : Int) :
    StepResult :=
  match tab.state with
  | none => ⟨tab, record, false⟩
  | some st =>
    if !st.isRunning then ⟨tab, record, false⟩
    else
      let doCheck := tab.lastReadonlyTickCheck == 0 ||
        decide (READONLY_CHECK_TICK_MS ≤ now - tab.lastReadonlyTickCheck)
      let tab1 := if doCheck then
          ({ (checkReadOnlyTab tab record selfTab now).1 with lastReadonlyTickCheck := now })
        else tab
      let record1 := if doCheck then (checkReadOnlyTab tab record selfTab now).2 else record
      if tab1.readonly then ⟨tab1, record1, false⟩
      else if st.overtime then
        let rem := overtimeRemaining st.overtimeStartAt now
        let tab2 := { tab1 with state := some { st with remaining := rem } }
        let ra := updateActive tab2 record1 selfTab now false
        ⟨{ tab2 with lastActivePing := ra.2 }, ra.1, false⟩
      else if !jsTruthyOpt st.endAt then ⟨tab1, record1, false⟩
      else
        let rem := computeRemainingFromEndAt st.endAt now
        let tab2 := { tab1 with state := some { st with remaining := rem } }
        if rem ≤ 0 then finishTimer tab2 record1 selfTab
        else
          let ra := updateActive tab2 record1 selfTab now false
          ⟨{ tab2 with lastActivePing := ra.2 }, ra.1, false⟩

/-- Source method `FloatingTimer.start(opts)`: gate on the lease (`checkReadOnly`; bail
out if read-only), reset a non-positive `remaining` to the default, leave
overtime, set `deadlineAt = now + max(0, remaining)·1000`, mark running,
start the poll and force a lease write.  Audio unlocking and rendering are
not modelled. -/
def startTab (tab : TabState) (record : Option LeaseRecord) (selfTab : String) (now : Int) :
    StepResult :=
  match tab.state with
  | none => ⟨tab, record, false⟩
  | some st =>
    let cr := checkReadOnlyTab tab record selfTab now
    let tab1 := cr.1
    let record1 := cr.2
    if tab1.readonly then ⟨tab1, record1, false⟩
    else
      let rem := if st.remaining ≤ 0 then st.defaultSeconds else st.remaining
      let st1 := { st with
        remaining := rem, overtime := false, overtimeStartAt := none,
        endAt := some (now + max 0 rem * 1000), isRunning := true }
      let tab2 := { tab1 with state := some st1, ticking := true }
      let ra := updateActive tab2 record1 selfTab now true
      ⟨{ tab2 with lastActivePing := ra.2 }, ra.1, false⟩

/-- Source method `FloatingTimer.pause()`: only while running; leaving overtime just
clears the overtime flags, otherwise a truthy deadline is snapshotted into
`remaining` via the clock; then stop running, clear the deadline, stop the
poll and release the lease. -/
def pauseTab (tab : TabState) (record : Option LeaseRecord) (selfTab : String) (now : Int) :
    StepResult :=
  match tab.state with
  | none => ⟨tab, record, false⟩
  | some st =>
    if !st.isRunning then ⟨tab, record, false⟩
    else
      let st1 :=
        if st.overtime then
          { st with
            overtime := false, overtimeStartAt := none, isRunning := false,
            endAt := none }
        else if jsTruthyOpt st.endAt then
          { st with
            remaining := computeRemainingFromEndAt st.endAt now,
            isRunning := false, endAt := none }
        else { st with isRunning := false, endAt := none }
      let record1 := if keyTruthy tab.currentKey then releaseLease record selfTab else record
      ⟨{ tab with state := some st1, ticking := false }, record1, false⟩

/-- The attribute-style configuration the host page exposes on the
`#train-page` marker element.  `sessionId = ""` models a missing or blank
`data-session-id`; `targetMinutes = none` models a missing or non-positive
`data-target-minutes` (`getTargetMinutesFromPage` returns `null` for
those). -/
structure PageConfig where
  enabled : Bool
  sessionId : String
  targetMinutes : Option Int
  autostart : Bool
deriving Repr, DecidableEq

/-- Source function `buildKeyFromPage`: a non-blank session id selects
`timer:session:<id>`, otherwise the shared dashboard key. -/
def buildKeyFromPage (cfg : PageConfig) : String :=
  if cfg.sessionId != "" then ("timer:session:" ++ cfg.sessionId)
  else ("timer:train:dashboard")

/-- Source method `FloatingTimer.configureFromPage()` restricted to its timer-logic
effects (show/hide, saved-position replay, session-stats sync, view and
minimized attributes, `_sessionId` and `cachedTargetMinutes` bookkeeping
are presentation-only and dropped).  `loaded` is the result of
`this.loadState(key)` for the configured key; `record` is the lease slot
for that key. -/
def configureFromPage (tab : TabState) (cfg : PageConfig) (loaded : Option TimerState)
    (record : Option LeaseRecord) (selfTab : String) (now : Int) : StepResult :=
  if !cfg.enabled then ⟨{ tab with ticking := false }, record, false⟩
  else
    let key := buildKeyFromPage cfg
    let targetMinutes := cfg.targetMinutes.getD 90
    let defaultSeconds := clampInt (some (targetMinutes * 60)) 60 MAX_SECONDS
    let hadState := loaded.isSome
    let st0 : TimerState :=
      if tab.currentKey != some key then loaded.getD (buildInitialState defaultSeconds now)
      else match tab.state with
        | none => loaded.getD (buildInitialState defaultSeconds now)
        | some st =>
          if !hadState && st.defaultSeconds ≤ 0 then buildInitialState defaultSeconds now
          else st
    let st1 := reconcile st0 defaultSeconds
    let tab1 := { tab with currentKey := some key, state := some st1 }
    if cfg.autostart && !hadState && !st1.isRunning then
      startTab tab1 record selfTab now
    else if st1.isRunning && st1.overtime then
      let tab2 := { tab1 with ticking := true }
      let cr := checkReadOnlyTab tab2 record selfTab now
      ⟨cr.1, cr.2, false⟩
    else if st1.isRunning && jsTruthyOpt st1.endAt then
      let rem := computeRemainingFromEndAt st1.endAt now
      let tab2 := { tab1 with state := some { st1 with remaining := rem } }
      if rem ≤ 0 then finishTimer tab2 record selfTab
      else
        let tab3 := { tab2 with ticking := true }
        let cr := checkReadOnlyTab tab3 record selfTab now
        ⟨cr.1, cr.2, false⟩
    else if st1.isRunning then
      let cr := checkReadOnlyTab tab1 record selfTab now
      ⟨cr.1, cr.2, false⟩
    else
      let tab2 := { tab1 with ticking := false }
      let cr := checkReadOnlyTab tab2 record selfTab now
      ⟨cr.1, cr.2, false⟩

/-- The work-item summary read from the `#train-session-stats` element
(`syncSessionStats`); absent element or negative/non-numeric total yields
`none` at the call site of `applyPacing`. -/
structure SessionStats where
  total : Int
  done : Int
  expectedTotal : Int
  expectedDone : Int
deriving Repr, DecidableEq

/-- The pacing classification shown in the widget.  `neutral` and `onPace`
both render the line "No ritmo"; they differ in the meta line (`neutral`
shows no item count). -/
inductive PaceLine where
  | neutral : PaceLine
  | completed : PaceLine
  | ahead : Int → PaceLine
  | behind : Int → PaceLine
  | onPace : PaceLine
deriving Repr, DecidableEq

/-- The observable output of `applyPacing`: the classification (with its
`~N min` figure where applicable) and the "Obrigatórios" count shown in
the meta line (`none` renders as "--"). -/
structure PacingOutput where
  line : PaceLine
  items : Option Int
deriving Repr, DecidableEq

/-- Source method `FloatingTimer.applyPacing(remainingSeconds)`.  The floating-point
division `defaultSeconds / total` is exact rational arithmetic here, and
`Math.round` is Mathlib's `round` on `ℚ` (both are `⌊x + 1/2⌋`). -/
def applyPacing (stats : Option SessionStats) (defaultSeconds : Int)
    (remainingSeconds : Int) : PacingOutput :=
  match stats with
  | none => ⟨.neutral, none⟩
  | some s =>
    if s.total ≤ 0 then ⟨.neutral, none⟩
    else
      let total := max 0 s.total
      let done := max 0 (min total s.done)
      let remainingItems := max 0 (total - done)
      let expectedTotal := max 0 s.expectedTotal
      let expectedDone := max 0 s.expectedDone
      if remainingItems == 0 then ⟨.completed, some 0⟩
      else
        let remaining : ℚ := max 0 remainingSeconds
        let diff : ℚ :=
          if 0 < expectedTotal then
            remaining - (max 0 (expectedTotal - expectedDone) : Int) * 60
          else
            remaining - (remainingItems : ℚ) * ((defaultSeconds : ℚ) / (total : ℚ))
        let diffMin : Int := round (|diff| / 60)
        if 300 < diff then ⟨.ahead diffMin, some remainingItems⟩
        else if diff < -300 then ⟨.behind diffMin, some remainingItems⟩
        else ⟨.onPace, some remainingItems⟩

/-- The four screen corners, in the iteration order of the object literal
built by `getCornerAnchors` (which `Object.entries` preserves). -/
inductive Corner where
  | tl : Corner
  | tr : Corner
  | bl : Corner
  | br : Corner
deriving Repr, DecidableEq

/-- The four padded anchor positions computed by
`getCornerAnchors(width, height)`; `vw`/`vh` are `window.innerWidth` /
`window.innerHeight`.  Each anchor is `(left, top)`. -/
structure CornerAnchors where
  tl : Int × Int
  tr : Int × Int
  bl : Int × Int
  br : Int × Int
deriving Repr, DecidableEq

/-- Source function `getCornerAnchors(width, height)` with `pad = 12`. -/
def getCornerAnchors (width height vw vh : Int) : CornerAnchors :=
  let pad : Int := 12
  { tl := (pad, pad)
    tr := (max pad (vw - width - pad), pad)
    bl := (pad, max pad (vh - height - pad))
    br := (max pad (vw - width - pad), max pad (vh - height - pad)) }

/-- Anchor lookup by corner name. -/
def anchorOf (a : CornerAnchors) : Corner → Int × Int
  | .tl => a.tl
  | .tr => a.tr
  | .bl => a.bl
  | .br => a.br

/-- Squared Euclidean distance between `(left, top)` and an anchor.  The
source compares `Math.hypot(left - anchor.left, top - anchor.top)` values;
`hypot` is monotone in the squared distance, so every `<` comparison of
distances agrees with the `<` comparison of these squares. -/
def dist2 (left top : Int) (p : Int × Int) : Int :=
  (left - p.1) * (left - p.1) + (top - p.2) * (top - p.2)

/-- The result of `snapToCorner`: the chosen corner, the (unchanged)
current position, and the offset of that position from the chosen anchor. -/
structure SnapResult where
  corner : Corner
  left : Int
  top : Int
  offsetX : Int
  offsetY : Int
deriving Repr, DecidableEq

/-- Source function `snapToCorner(left, top, width, height)`: iterate over the anchors in
entry order `tl, tr, bl, br`, keeping the first anchor realizing the
strictly smallest distance, and report it with the offset from it. -/
def snapToCorner (left top width height vw vh : Int) : SnapResult :=
  let a := getCornerAnchors width height vw vh
  let d1 := dist2 left top a.tl
  let c1 : Corner := .tl
  let d2 := if dist2 left top a.tr < d1 then dist2 left top a.tr else d1
  let c2 : Corner := if dist2 left top a.tr < d1 then .tr else c1
  let d3 := if dist2 left top a.bl < d2 then dist2 left top a.bl else d2
  let c3 : Corner := if dist2 left top a.bl < d2 then .bl else c2
  let c4 : Corner := if dist2 left top a.br < d3 then .br else c3
  let anchor := anchorOf a c4
  { corner := c4, left := left, top := top,
    offsetX := left - anchor.1, offsetY := top - anchor.2 }

/-- The position record persisted by `savePosCorner(corner, offsetX,
offsetY)` (its provenance timestamp is dropped). -/
structure SavedCornerPos where
  corner : Corner
  offsetX : Int
  offsetY : Int
deriving Repr, DecidableEq

/-- The persistence step of `onDragEnd`: after a drag that actually moved
(`drag.moved`), the last dragged position is snapped and stored as corner
plus offset; a click without real movement stores nothing. -/
def dragEndPersistedPos (moved : Bool) (lastLeft lastTop width height vw vh : Int) :
    Option SavedCornerPos :=
  if moved then
    let s := snapToCorner lastLeft lastTop width height vw vh
    some { corner := s.corner, offsetX := s.offsetX, offsetY := s.offsetY }
  else none

/-! Supporting lemmas. -/

/-- Euclidean division by 1000 is the rational floor. -/
theorem jsFloorDiv1000_eq_floor (a : Int) : jsFloorDiv1000 a = ⌊(a : ℚ) / 1000⌋ := by
  have h := Rat.floor_intCast_div_natCast a 1000
  rw [jsFloorDiv1000]
  push_cast at h
  rw [h]

/-- The map `jsCeilDiv1000` is the rational ceiling. -/
theorem jsCeilDiv1000_eq_ceil (a : Int) : jsCeilDiv1000 a = ⌈(a : ℚ) / 1000⌉ := by
  have h1 : ((a : ℚ) / 1000) = -(((-a : Int) : ℚ) / 1000) := by push_cast; ring
  rw [h1, Int.ceil_neg, jsCeilDiv1000, ← jsFloorDiv1000_eq_floor, jsFloorDiv1000]

/-- The drift-corrected countdown value is never negative. -/
theorem computeRemainingFromEndAt_nonneg (endAt : Option Int) (now : Int) :
    0 ≤ computeRemainingFromEndAt endAt now := by
  rw [computeRemainingFromEndAt]
  split_ifs <;> simp [le_max_iff]

/-- A `tick` on a non-running state is a complete no-op. -/
theorem tick_not_running (tab : TabState) (record : Option LeaseRecord) (selfTab : String)
    (now : Int) (st : TimerState) (hstate : tab.state = some st)
    (hrun : st.isRunning = false) :
    tick tab record selfTab now = ⟨tab, record, false⟩ := by
  simp only [tick, hstate, hrun]
  simp

/-- Outside overtime, a `tick` never drives a nonnegative `remaining`
negative: the countdown branch writes `max 0 …` and `finish` writes `0`. -/
theorem tick_remaining_nonneg (tab : TabState) (record : Option LeaseRecord)
    (selfTab : String) (now : Int) (st : TimerState) (hstate : tab.state = some st)
    (hot : st.overtime = false) (hnn : 0 ≤ st.remaining) :
    ∀ st2, (tick tab record selfTab now).tab.state = some st2 → 0 ≤ st2.remaining := by
  intro st2 h2
  simp only [tick, hstate, hot] at h2
  have hkst : (checkReadOnlyTab tab record selfTab now).1.state = tab.state := by
    simp only [checkReadOnlyTab]
    split_ifs <;> rfl
  split_ifs at h2 <;>
    simp only [finishTimer, StepResult.tab, hkst, hstate, Option.some.injEq] at h2 <;>
    first
      | contradiction
      | (subst h2; dsimp only; omega)
      | (subst h2; exact computeRemainingFromEndAt_nonneg _ _)
      | (rw [← h2]; exact hnn)

/-- Releasing a lease that is absent or owned by the releasing tab clears
the slot. -/
theorem releaseLease_own (rec : Option LeaseRecord) (selfTab : String)
    (h : ∀ r, rec = some r → r.tabId = selfTab) : releaseLease rec selfTab = none := by
  cases rec with
  | none => rfl
  | some r =>
    rw [releaseLease]
    simp [h r rfl]

/-- The map `checkReadOnlyLease` never hands the lease to a new owner: any record
it keeps was already stored. -/
theorem checkReadOnlyLease_own (rec : Option LeaseRecord) (selfTab : String) (now : Int)
    (h : ∀ r, rec = some r → r.tabId = selfTab) :
    ∀ r, checkReadOnlyLease rec selfTab now = some r → r.tabId = selfTab := by
  intro r hr
  cases rec with
  | none => simp [checkReadOnlyLease] at hr
  | some r0 =>
    rw [checkReadOnlyLease] at hr
    by_cases hc : (leaseIsStale r0 now && (r0.tabId == selfTab)) = true
    · rw [if_pos hc] at hr
      cases hr
    · rw [if_neg hc] at hr
      injection hr with hr
      subst hr
      exact h r0 rfl

/-! Claims. -/

/-- Claim C1 counterexample: with the deadline 400 ms away the code
reports 1 remaining second (`Math.ceil(0.4) = 1`), while the claimed
formula `max(0, round((deadlineAt − now)/1000))` gives 0 — the clock
rounds up, it does not round to nearest. -/
theorem claim_c1_counterexample :
    computeRemainingFromEndAt (some 1400) 1000 = 1 ∧
    specRemainingRound 1400 1000 = 0 ∧
    computeRemainingFromEndAt (some 1400) 1000 ≠ specRemainingRound 1400 1000 := by
  have h1 : computeRemainingFromEndAt (some 1400) 1000 = 1 := by decide
  have hr : round (((1400 : ℚ) - 1000) / 1000) = 0 := by
    rw [round_eq, Int.floor_eq_iff]
    norm_num
  have h2 : specRemainingRound 1400 1000 = 0 := by
    rw [specRemainingRound]
    push_cast
    rw [hr]
    simp
  exact ⟨h1, h2, by rw [h1, h2]; decide⟩

/-- Claim C1 (amended): for every non-null (truthy) `deadlineAt` the
clock's remaining time equals `max(0, ⌈(deadlineAt − now)/1000⌉)` — a
ceiling, not a round — and for every non-null (truthy) `overtimeStartAt`
the elapsed overtime equals `max(0, ⌊(now − overtimeStartAt)/1000⌋)`,
reported as a negative remaining value, exactly as claimed. -/
theorem claim_c1_amended (e s now1 now2 : Int) (he : e ≠ 0) (hs : s ≠ 0) :
    computeRemainingFromEndAt (some e) now1 = max 0 ⌈((e : ℚ) - now1) / 1000⌉ ∧
    overtimeRemaining (some s) now2 = -(max 0 ⌊((now2 : ℚ) - s) / 1000⌋) := by
  constructor
  · rw [computeRemainingFromEndAt]
    have ht : jsTruthyOpt (some e) = true := by
      simp [jsTruthyOpt, he]
    rw [if_pos ht, Option.getD_some, jsCeilDiv1000_eq_ceil]
    norm_num
  · rw [overtimeRemaining]
    have ht : jsTruthyOpt (some s) = true := by
      simp [jsTruthyOpt, hs]
    rw [if_pos ht, Option.getD_some, jsFloorDiv1000_eq_floor]
    norm_num

/-- Claim C1 witness: the amended clock contract evaluated at a deadline
400 ms ahead and an overtime start 3500 ms in the past. -/
theorem claim_c1_witness :
    computeRemainingFromEndAt (some 1400) 1000 = max 0 ⌈((1400 : ℚ) - 1000) / 1000⌉ ∧
    overtimeRemaining (some 1000) 4500 = -(max 0 ⌊((4500 : ℚ) - 1000) / 1000⌋) :=
  claim_c1_amended 1400 1000 1000 4500 (by decide) (by decide)

/-- Claim C2 counterexample: a record exactly 15 s old is no longer live
by the claim's strict `now − updatedAt < 15s` test, so it should impose
read-only on no tab; the code's `now − updatedAt > 15000` staleness test
still treats it as live and a foreign tab is read-only. -/
theorem claim_c2_counterexample :
    checkReadOnly (some ⟨"tab_a", none, false, none, some 1000⟩) "tab_b" 16000 = true ∧
    ¬((16000 : Int) - 1000 < ACTIVE_TTL_MS) := by
  refine ⟨by decide, by decide⟩

/-- Claim C2 (amended): a lease record with a truthy `updatedAt` is live
iff `now − updatedAt ≤ 15s` (the boundary instant is still live); a tab
observing a live record owned by a different, nonempty tab identifier is
read-only; a record not refreshed for strictly more than 15 s is stale
and imposes read-only on no tab, making it eligible for takeover. -/
theorem claim_c2_amended (r : LeaseRecord) (u : Int) (selfTab : String) (now : Int)
    (hu : r.updatedAt = some u) (hu0 : u ≠ 0) :
    (checkReadOnly (some r) selfTab now = true ↔
      (now - u ≤ ACTIVE_TTL_MS ∧ r.tabId ≠ "" ∧ r.tabId ≠ selfTab)) ∧
    (ACTIVE_TTL_MS < now - u → checkReadOnly (some r) selfTab now = false) := by
  have hstale : leaseIsStale r now = decide (ACTIVE_TTL_MS < now - u) := by
    simp [leaseIsStale, hu, jsTruthyOpt, hu0]
  constructor
  · rw [checkReadOnly, hstale]
    by_cases h : ACTIVE_TTL_MS < now - u
    · rw [if_pos (by simp [h])]
      constructor
      · intro hfalse
        exact absurd hfalse (by simp)
      · rintro ⟨h1, -, -⟩
        omega
    · rw [if_neg (by simp [h])]
      simp only [Bool.and_eq_true, bne_iff_ne, ne_eq]
      constructor
      · rintro ⟨h1, h2⟩
        exact ⟨by omega, h1, h2⟩
      · rintro ⟨-, h1, h2⟩
        exact ⟨h1, h2⟩
  · intro h
    rw [checkReadOnly, hstale, if_pos (by simp [h])]

/-- Claim C2 witness: a 4 s old foreign lease is live and imposes
read-only; after more than 15 s it is stale and imposes nothing. -/
theorem claim_c2_witness :
    ((checkReadOnly (some ⟨"tab_a", none, false, none, some 1000⟩) "tab_b" 5000 = true ↔
      ((5000 : Int) - 1000 ≤ ACTIVE_TTL_MS ∧ "tab_a" ≠ "" ∧ "tab_a" ≠ "tab_b")) ∧
     (ACTIVE_TTL_MS < (5000 : Int) - 1000 →
      checkReadOnly (some ⟨"tab_a", none, false, none, some 1000⟩) "tab_b" 5000 = false)) ∧
    (ACTIVE_TTL_MS < (20000 : Int) - 1000 →
      checkReadOnly (some ⟨"tab_a", none, false, none, some 1000⟩) "tab_b" 20000 = false) :=
  ⟨claim_c2_amended ⟨"tab_a", none, false, none, some 1000⟩ 1000 "tab_b" 5000 rfl (by decide),
   (claim_c2_amended ⟨"tab_a", none, false, none, some 1000⟩ 1000 "tab_b" 20000 rfl
     (by decide)).2⟩

/-- Claim C10: a lease record whose `updatedAt` field is missing or zero
(falsy) is never considered stale, so a tab observing it owned by a
different, nonempty tab identifier is read-only no matter how much time
has elapsed — the 15 s TTL takeover never applies to such a record. -/
theorem claim_c10 (r : LeaseRecord) (selfTab : String) (now : Int)
    (hfalsy : jsTruthyOpt r.updatedAt = false)
    (howner : r.tabId ≠ "") (hother : r.tabId ≠ selfTab) :
    leaseIsStale r now = false ∧ checkReadOnly (some r) selfTab now = true := by
  have hstale : leaseIsStale r now = false := by
    rw [leaseIsStale, hfalsy]
    rfl
  refine ⟨hstale, ?_⟩
  rw [checkReadOnly, hstale]
  simp [howner, hother]

/-- Claim C10 witness: a record with no `updatedAt` at all, owned by
another tab, still imposes read-only a million seconds later. -/
theorem claim_c10_witness :
    leaseIsStale ⟨"tab_a", none, false, none, none⟩ 1000000000 = false ∧
    checkReadOnly (some ⟨"tab_a", none, false, none, none⟩) "tab_b" 1000000000 = true :=
  claim_c10 ⟨"tab_a", none, false, none, none⟩ "tab_b" 1000000000 (by decide) (by decide)
    (by decide)

/-- Claim C4 counterexample: an idle timer with `remaining = 0` (all time
consumed) and old default 5400 s is reconfigured to 3600 s; `remaining`
does not equal the old default, so by the claim it should stay 0, but the
code's `!this.state.remaining` disjunct snaps it to the new default. -/
theorem claim_c4_counterexample :
    (reconcile ⟨0, false, none, 5400, true, 0, false, "compact", false, none⟩ 3600).remaining
      = 3600 ∧
    (reconcile ⟨0, false, none, 5400, true, 0, false, "compact", false, none⟩ 3600).remaining
      ≠ 0 ∧
    (0 : Int) ≠ 5400 := by
  refine ⟨by decide, by decide, by decide⟩

/-- Claim C4 (amended): on reconfiguration with a changed target,
`defaultSeconds` is updated only while neither running nor in overtime,
and `remainingSeconds` snaps to the new default exactly when it still
equals the old default or is zero (falsy); any other value is left
unchanged. -/
theorem claim_c4_amended (st : TimerState) (d : Int) :
    ((st.isRunning = true ∨ st.overtime = true) → reconcile st d = st) ∧
    (st.isRunning = false → st.overtime = false → st.defaultSeconds = d →
      reconcile st d = st) ∧
    (st.isRunning = false → st.overtime = false → st.defaultSeconds ≠ d →
      (reconcile st d).defaultSeconds = d ∧
      ((st.remaining = 0 ∨ st.remaining = st.defaultSeconds) →
        (reconcile st d).remaining = d) ∧
      (st.remaining ≠ 0 → st.remaining ≠ st.defaultSeconds →
        (reconcile st d).remaining = st.remaining)) := by
  refine ⟨?_, ?_, ?_⟩
  · intro h
    rw [reconcile]
    rcases h with h | h <;> simp [h]
  · intro h1 h2 h3
    rw [reconcile]
    simp [h1, h2, h3]
  · intro h1 h2 h3
    rw [reconcile]
    simp only [h1, h2, Bool.not_false, Bool.and_self, if_true, bne_iff_ne, ne_eq, h3,
      not_false_eq_true, beq_iff_eq, Bool.or_eq_true, decide_eq_true_eq]
    refine ⟨?_, ?_, ?_⟩
    · split_ifs <;> rfl
    · intro h4
      rw [if_pos (by simpa using h4)]
    · intro h4 h5
      rw [if_neg (by simp [h4, h5])]

/-- Claim C4 witness: with old default 5400 s and new default 3600 s, a
`remaining` still equal to the old default snaps to 3600, while a partly
consumed `remaining` of 100 s is left unchanged. -/
theorem claim_c4_witness :
    (reconcile ⟨5400, false, none, 5400, true, 0, false, "compact", false, none⟩ 3600).remaining
      = 3600 ∧
    (reconcile ⟨100, false, none, 5400, true, 0, false, "compact", false, none⟩ 3600).remaining
      = 100 :=
  ⟨((claim_c4_amended ⟨5400, false, none, 5400, true, 0, false, "compact", false, none⟩
      3600).2.2 rfl rfl (by decide)).2.1 (Or.inr rfl),
   ((claim_c4_amended ⟨100, false, none, 5400, true, 0, false, "compact", false, none⟩
      3600).2.2 rfl rfl (by decide)).2.2 (by decide) (by decide)⟩

/-- Claim C7: with no work-item data `applyPacing` reports the neutral
on-pace default with no item count; and in the spec's example (total 10,
done 5, no external expected counts, default 6000 s, actual remaining
3400 s) the ideal remaining is 5 × 600 s = 3000 s, the diff +400 s
exceeds the 300 s band, the session is classified ahead (7 min), and 5
mandatory items are reported as remaining. -/
theorem claim_c7 :
    (∀ ds rem : Int, applyPacing none ds rem = ⟨.neutral, none⟩) ∧
    applyPacing (some ⟨10, 5, 0, 0⟩) 6000 3400 = ⟨.ahead 7, some 5⟩ ∧
    (5 : ℚ) * ((6000 : ℚ) / 10) = 3000 ∧
    (3400 : ℚ) - 3000 = 400 ∧ (300 : ℚ) < 400 := by
  refine ⟨fun ds rem => rfl, ?_, by norm_num, by norm_num, by norm_num⟩
  rw [applyPacing]
  norm_num
  rw [round_eq, Int.floor_eq_iff]
  norm_num

/-- Claim C9: `loadState` yields no state (`none`), never an error, for a
missing or unparseable record, and every successfully loaded state has
`defaultSeconds` coerced into `[60, 14400]` and `remaining` coerced into
`[−14400, 14400]`. -/
theorem claim_c9 :
    (∀ now : Int, loadState none now = none) ∧
    (∀ (raw : RawTimerRecord) (now : Int) (st : TimerState),
      loadState (some raw) now = some st →
      60 ≤ st.defaultSeconds ∧ st.defaultSeconds ≤ MAX_SECONDS ∧
      -MAX_SECONDS ≤ st.remaining ∧ st.remaining ≤ MAX_SECONDS) := by
  constructor
  · intro now
    rfl
  · intro raw now st h
    rw [loadState] at h
    injection h with h
    subst h
    dsimp only
    rw [clampInt, clampInt, MAX_SECONDS]
    constructor
    · simp [le_max_iff]
    constructor
    · norm_num [max_le_iff, min_le_iff]
    constructor
    · simp [le_max_iff]
    · norm_num [max_le_iff, min_le_iff]

/-- Claim C9 witness: a record with wildly out-of-range numbers loads
with both fields clamped into their safe ranges. -/
theorem claim_c9_witness :
    60 ≤ (TimerState.mk 14400 false none 60 true 5 false ("compact") false none).defaultSeconds ∧
    (TimerState.mk 14400 false none 60 true 5 false ("compact") false none).defaultSeconds
      ≤ MAX_SECONDS ∧
    -MAX_SECONDS ≤ (TimerState.mk 14400 false none 60 true 5 false ("compact") false
      none).remaining ∧
    (TimerState.mk 14400 false none 60 true 5 false ("compact") false none).remaining
      ≤ MAX_SECONDS :=
  claim_c9.2 ⟨some 99999, some 7, false, none, true, false, none, false, none, some 5⟩ 0
    (TimerState.mk 14400 false none 60 true 5 false ("compact") false none) (by decide)

/-- Claim C3: when the countdown reaches zero while running and not in
overtime (deadline `e ≤ now`), a poll tick fires `finish` exactly once —
it stops the poll, clears `isRunning` and `endAt`, pins
`remainingSeconds` to exactly 0 and releases the (absent or own) lease —
a subsequent tick is a complete no-op and fires nothing, and outside
overtime no tick ever drives a nonnegative `remainingSeconds` negative. -/
theorem claim_c3 (tab : TabState) (record : Option LeaseRecord) (selfTab : String)
    (now : Int) (st : TimerState) (e : Int)
    (hstate : tab.state = some st) (hrun : st.isRunning = true)
    (hot : st.overtime = false) (hend : st.endAt = some e) (he : e ≠ 0)
    (hkey : keyTruthy tab.currentKey = true) (hro : tab.readonly = false)
    (hlease : checkReadOnly record selfTab now = false)
    (hown : ∀ r, record = some r → r.tabId = selfTab)
    (hreach : e ≤ now) :
    (tick tab record selfTab now).finished = true ∧
    (tick tab record selfTab now).tab.state = some { st with
      isRunning := false, endAt := none, remaining := 0,
      overtime := false, overtimeStartAt := none } ∧
    (tick tab record selfTab now).tab.ticking = false ∧
    (tick tab record selfTab now).lease = none ∧
    (∀ (rec2 : Option LeaseRecord) (self2 : String) (now2 : Int),
      tick (tick tab record selfTab now).tab rec2 self2 now2 =
        ⟨(tick tab record selfTab now).tab, rec2, false⟩) ∧
    (∀ (tab' : TabState) (rec' : Option LeaseRecord) (self' : String) (n' : Int)
      (st1 : TimerState), tab'.state = some st1 → st1.overtime = false →
      0 ≤ st1.remaining →
      ∀ st2, (tick tab' rec' self' n').tab.state = some st2 → 0 ≤ st2.remaining) := by
  have hrem : computeRemainingFromEndAt st.endAt now = 0 := by
    rw [hend, computeRemainingFromEndAt, if_pos (by simp [jsTruthyOpt, he])]
    rw [Option.getD_some, jsCeilDiv1000, max_eq_left (by omega)]
  have htr : jsTruthyOpt st.endAt = true := by
    rw [hend]
    simp [jsTruthyOpt, he]
  have hcro1 : (checkReadOnlyTab tab record selfTab now).1 =
      { tab with readonly := false } := by
    rw [checkReadOnlyTab, if_neg (by simp [hkey]), hlease]
  have hcro2 : (checkReadOnlyTab tab record selfTab now).2 =
      checkReadOnlyLease record selfTab now := by
    rw [checkReadOnlyTab, if_neg (by simp [hkey])]
  have hrel1 : releaseLease (checkReadOnlyLease record selfTab now) selfTab = none :=
    releaseLease_own _ _ (checkReadOnlyLease_own record selfTab now hown)
  have hrel0 : releaseLease record selfTab = none := releaseLease_own _ _ hown
  have hstep : ∃ t : TabState, tick tab record selfTab now = ⟨t, none, true⟩ ∧
      t.state = some { st with
        isRunning := false, endAt := none, remaining := 0,
        overtime := false, overtimeStartAt := none } ∧
      t.ticking = false := by
    by_cases hdc : (tab.lastReadonlyTickCheck == 0 ||
        decide (READONLY_CHECK_TICK_MS ≤ now - tab.lastReadonlyTickCheck)) = true
    · refine ⟨{ tab with
          readonly := false, lastReadonlyTickCheck := now,
          state := some { st with
            isRunning := false, endAt := none, remaining := 0,
            overtime := false, overtimeStartAt := none },
          ticking := false }, ?_, rfl, rfl⟩
      simp [tick, hstate, hrun, hot, htr, hdc, hrem, hcro1, hcro2, finishTimer, hkey,
        hrel1]
    · refine ⟨{ tab with
          state := some { st with
            isRunning := false, endAt := none, remaining := 0,
            overtime := false, overtimeStartAt := none },
          ticking := false }, ?_, rfl, rfl⟩
      simp [tick, hstate, hrun, hot, htr, hdc, hrem, hro, finishTimer, hkey, hrel0]
  obtain ⟨t, ht, hts, htt⟩ := hstep
  refine ⟨by rw [ht], by rw [ht]; exact hts, by rw [ht]; exact htt, by rw [ht], ?_, ?_⟩
  · intro rec2 self2 now2
    rw [ht]
    exact tick_not_running t rec2 self2 now2 _ hts rfl
  · intro tab' rec' self' n' st1 h1 h2 h3
    exact tick_remaining_nonneg tab' rec' self' n' st1 h1 h2 h3

/-- Claim C3 witness: a running dashboard timer whose deadline (5000 ms)
has passed by `now = 6000` finishes on this tick, releases its own lease,
and a later tick of the finished tab changes nothing. -/
theorem claim_c3_witness :
    (tick ⟨some ("timer:train:dashboard"),
        some ⟨10, true, some 5000, 5400, true, 0, false, "compact", false, none⟩,
        false, true, 0, 0⟩
      (some ⟨"tab_a", some 5000, false, none, some 4000⟩) "tab_a" 6000).finished = true ∧
    (tick ⟨some ("timer:train:dashboard"),
        some ⟨10, true, some 5000, 5400, true, 0, false, "compact", false, none⟩,
        false, true, 0, 0⟩
      (some ⟨"tab_a", some 5000, false, none, some 4000⟩) "tab_a" 6000).tab.state =
      some ⟨0, false, none, 5400, true, 0, false, "compact", false, none⟩ ∧
    (tick ⟨some ("timer:train:dashboard"),
        some ⟨10, true, some 5000, 5400, true, 0, false, "compact", false, none⟩,
        false, true, 0, 0⟩
      (some ⟨"tab_a", some 5000, false, none, some 4000⟩) "tab_a" 6000).lease = none ∧
    tick (tick ⟨some ("timer:train:dashboard"),
        some ⟨10, true, some 5000, 5400, true, 0, false, "compact", false, none⟩,
        false, true, 0, 0⟩
      (some ⟨"tab_a", some 5000, false, none, some 4000⟩) "tab_a" 6000).tab
        none ("tab_b") 7000 =
      ⟨(tick ⟨some ("timer:train:dashboard"),
          some ⟨10, true, some 5000, 5400, true, 0, false, "compact", false, none⟩,
          false, true, 0, 0⟩
        (some ⟨"tab_a", some 5000, false, none, some 4000⟩) "tab_a" 6000).tab,
       none, false⟩ := by
  have h := claim_c3
    ⟨some ("timer:train:dashboard"),
      some ⟨10, true, some 5000, 5400, true, 0, false, "compact", false, none⟩,
      false, true, 0, 0⟩
    (some ⟨"tab_a", some 5000, false, none, some 4000⟩) "tab_a" 6000
    ⟨10, true, some 5000, 5400, true, 0, false, "compact", false, none⟩ 5000
    rfl rfl rfl rfl (by decide) (by decide) rfl (by decide)
    (by intro r hr; cases hr; rfl) (by decide)
  exact ⟨h.1, h.2.1, h.2.2.2.1, h.2.2.2.2.1 none ("tab_b") 7000⟩

/-- Claim C6: with no live foreign lease, starting from an idle state
whose `remaining` is non-positive (reset to the default first) or still
equal to the default, and pausing within one second, leaves the timer
stopped with no deadline and `remainingSeconds` within 1 s of
`defaultSeconds`. -/
theorem claim_c6 (tab : TabState) (st : TimerState) (record : Option LeaseRecord)
    (selfTab : String) (now δ : Int)
    (hstate : tab.state = some st)
    (hkey : keyTruthy tab.currentKey = true)
    (hlease : checkReadOnly record selfTab now = false)
    (hidle : st.remaining ≤ 0 ∨ st.remaining = st.defaultSeconds)
    (hD : 1 ≤ st.defaultSeconds)
    (hδ0 : 0 ≤ δ) (hδ1 : δ ≤ 1000) :
    ((pauseTab (startTab tab record selfTab now).tab
        (startTab tab record selfTab now).lease selfTab (now + δ)).tab.state.getD
        (buildInitialState 0 0)).isRunning = false ∧
    ((pauseTab (startTab tab record selfTab now).tab
        (startTab tab record selfTab now).lease selfTab (now + δ)).tab.state.getD
        (buildInitialState 0 0)).endAt = none ∧
    |((pauseTab (startTab tab record selfTab now).tab
        (startTab tab record selfTab now).lease selfTab (now + δ)).tab.state.getD
        (buildInitialState 0 0)).remaining - st.defaultSeconds| ≤ 1 := by
  have hcro1 : (checkReadOnlyTab tab record selfTab now).1 =
      { tab with readonly := false } := by
    rw [checkReadOnlyTab, if_neg (by simp [hkey]), hlease]
  have hrem0 : (if st.remaining ≤ 0 then st.defaultSeconds else st.remaining) =
      st.defaultSeconds := by
    rcases hidle with h | h
    · rw [if_pos h]
    · split_ifs <;> omega
  have hmax : max 0 st.defaultSeconds = st.defaultSeconds := max_eq_right (by omega)
  have hstart : startTab tab record selfTab now =
      ⟨{ tab with
          readonly := false,
          state := some { st with
            remaining := st.defaultSeconds, overtime := false, overtimeStartAt := none,
            endAt := some (now + st.defaultSeconds * 1000), isRunning := true },
          ticking := true, lastActivePing := now },
        some ⟨selfTab, some (now + st.defaultSeconds * 1000), false, none, some now⟩,
        false⟩ := by
    simp [startTab, hstate, hcro1, hrem0, hmax, updateActive, hkey]
  rw [hstart]
  by_cases hz : now + st.defaultSeconds * 1000 = 0
  · simp [pauseTab, jsTruthyOpt, hz]
  · have hrem1 : computeRemainingFromEndAt (some (now + st.defaultSeconds * 1000))
        (now + δ) = -(-(now + st.defaultSeconds * 1000 - (now + δ)) / 1000) := by
      rw [computeRemainingFromEndAt, if_pos (by simp [jsTruthyOpt, hz]),
        Option.getD_some, jsCeilDiv1000]
      exact max_eq_right (by omega)
    simp only [pauseTab, Bool.not_true, Bool.false_eq_true, if_false, jsTruthyOpt, hz,
      bne_self_eq_false, ne_eq, not_false_eq_true, bne_iff_ne, if_true, hrem1]
    refine ⟨?_, ?_, ?_⟩
    · simp [hz]
    · simp [hz]
    · simp only [hz, if_false, Option.getD_some]
      rw [abs_le]
      constructor <;> omega

/-- Claim C6 witness: a 5-minute idle timer started at `now = 1000` and
paused 500 ms later is stopped, has no deadline, and still shows a
remaining time within 1 s of the 300 s default. -/
theorem claim_c6_witness :
    ((pauseTab (startTab ⟨some ("timer:train:dashboard"),
          some ⟨300, false, none, 300, true, 0, false, "compact", false, none⟩,
          false, false, 0, 0⟩ none ("tab_a") 1000).tab
        (startTab ⟨some ("timer:train:dashboard"),
          some ⟨300, false, none, 300, true, 0, false, "compact", false, none⟩,
          false, false, 0, 0⟩ none ("tab_a") 1000).lease ("tab_a") (1000 + 500)).tab.state.getD
        (buildInitialState 0 0)).isRunning = false ∧
    ((pauseTab (startTab ⟨some ("timer:train:dashboard"),
          some ⟨300, false, none, 300, true, 0, false, "compact", false, none⟩,
          false, false, 0, 0⟩ none ("tab_a") 1000).tab
        (startTab ⟨some ("timer:train:dashboard"),
          some ⟨300, false, none, 300, true, 0, false, "compact", false, none⟩,
          false, false, 0, 0⟩ none ("tab_a") 1000).lease ("tab_a") (1000 + 500)).tab.state.getD
        (buildInitialState 0 0)).endAt = none ∧
    |((pauseTab (startTab ⟨some ("timer:train:dashboard"),
          some ⟨300, false, none, 300, true, 0, false, "compact", false, none⟩,
          false, false, 0, 0⟩ none ("tab_a") 1000).tab
        (startTab ⟨some ("timer:train:dashboard"),
          some ⟨300, false, none, 300, true, 0, false, "compact", false, none⟩,
          false, false, 0, 0⟩ none ("tab_a") 1000).lease ("tab_a") (1000 + 500)).tab.state.getD
        (buildInitialState 0 0)).remaining - (300 : Int)| ≤ 1 :=
  claim_c6 ⟨some ("timer:train:dashboard"),
      some ⟨300, false, none, 300, true, 0, false, "compact", false, none⟩,
      false, false, 0, 0⟩
    ⟨300, false, none, 300, true, 0, false, "compact", false, none⟩ none ("tab_a") 1000 500
    rfl (by decide) (by decide) (Or.inr rfl) (by decide) (by decide) (by decide)

/-- Claim C5 counterexample: a running timer (stored `remaining` snapshot
100 s, deadline at 10000 ms) is reconfigured at `now = 5000` with a
different target (60 min vs the stored 90 min default): the code leaves
`endAt` and `defaultSeconds` alone but rewrites `remaining` from the
clock to 5, so `remainingSeconds` does not stay unchanged as claimed. -/
theorem claim_c5_counterexample :
    ((configureFromPage
        ⟨some ("timer:train:dashboard"),
          some ⟨100, true, some 10000, 5400, true, 0, false, "compact", false, none⟩,
          false, true, 0, 0⟩
        ⟨true, "", some 60, false⟩ none none ("tab_a") 5000).tab.state.getD
        (buildInitialState 0 0)).remaining = 5 ∧
    (5 : Int) ≠ 100 ∧ (60 : Int) * 60 ≠ 5400 := by
  refine ⟨by decide, by decide, by decide⟩

/-- Claim C5 (amended): reconfiguring a running timer with any target
duration yields a result that is independent of the supplied target — it
leaves `endAt` and `defaultSeconds` unchanged and refreshes
`remainingSeconds` to the drift-corrected clock value derived from the
unchanged deadline (exactly what any poll tick would write), provided the
deadline has not already passed. -/
theorem claim_c5_amended (tab : TabState) (cfg : PageConfig) (tm1 tm2 : Option Int)
    (loaded : Option TimerState) (record : Option LeaseRecord) (selfTab : String)
    (now : Int) (st : TimerState) (e : Int)
    (henabled : cfg.enabled = true)
    (hkey : tab.currentKey = some (buildKeyFromPage cfg))
    (hstate : tab.state = some st)
    (hrun : st.isRunning = true) (hot : st.overtime = false)
    (hend : st.endAt = some e) (he : e ≠ 0)
    (hdef : 0 < st.defaultSeconds)
    (hrem : 0 < computeRemainingFromEndAt (some e) now) :
    configureFromPage tab { cfg with targetMinutes := tm1 } loaded record selfTab now =
      configureFromPage tab { cfg with targetMinutes := tm2 } loaded record selfTab now ∧
    ((configureFromPage tab cfg loaded record selfTab now).tab.state.getD
        (buildInitialState 0 0)).endAt = st.endAt ∧
    ((configureFromPage tab cfg loaded record selfTab now).tab.state.getD
        (buildInitialState 0 0)).defaultSeconds = st.defaultSeconds ∧
    ((configureFromPage tab cfg loaded record selfTab now).tab.state.getD
        (buildInitialState 0 0)).isRunning = true ∧
    ((configureFromPage tab cfg loaded record selfTab now).tab.state.getD
        (buildInitialState 0 0)).remaining = computeRemainingFromEndAt st.endAt now := by
  obtain ⟨en, sid, tmc, au⟩ := cfg
  dsimp only at henabled
  subst henabled
  have htr : jsTruthyOpt st.endAt = true := by
    rw [hend]
    simp [jsTruthyOpt, he]
  have hrec : ∀ d, reconcile st d = st := by
    intro d
    rw [reconcile]
    simp [hrun]
  have hnle : ¬(computeRemainingFromEndAt st.endAt now ≤ 0) := by
    rw [hend]
    omega
  have hgen : ∀ tm : Option Int,
      configureFromPage tab ⟨true, sid, tm, au⟩ loaded record selfTab now =
        ⟨(checkReadOnlyTab { tab with
            currentKey := some (buildKeyFromPage ⟨true, sid, tmc, au⟩),
            state := some { st with remaining := computeRemainingFromEndAt st.endAt now },
            ticking := true } record selfTab now).1,
          (checkReadOnlyTab { tab with
            currentKey := some (buildKeyFromPage ⟨true, sid, tmc, au⟩),
            state := some { st with remaining := computeRemainingFromEndAt st.endAt now },
            ticking := true } record selfTab now).2, false⟩ := by
    intro tm
    simp [configureFromPage, buildKeyFromPage, hkey, hstate, hrun, hot, htr, hrec,
      hnle, hdef.not_le]
  have hst3 : ∀ (t : TabState), (checkReadOnlyTab t record selfTab now).1.state =
      t.state := by
    intro t
    rw [checkReadOnlyTab]
    split_ifs <;> rfl
  refine ⟨by rw [hgen tm1, hgen tm2], ?_, ?_, ?_, ?_⟩ <;>
    rw [hgen tmc] <;>
    simp only [hst3] <;>
    simp [hrun]

/-- Claim C5 witness: the amended statement evaluated on a running timer
(deadline 10000 ms, default 5400 s) reconfigured at `now = 5000` with
targets 60 and 45 minutes. -/
theorem claim_c5_witness :
    configureFromPage ⟨some ("timer:train:dashboard"),
        some ⟨100, true, some 10000, 5400, true, 0, false, "compact", false, none⟩,
        false, true, 0, 0⟩
      ⟨true, "", some 60, false⟩ none none ("tab_a") 5000 =
      configureFromPage ⟨some ("timer:train:dashboard"),
        some ⟨100, true, some 10000, 5400, true, 0, false, "compact", false, none⟩,
        false, true, 0, 0⟩
      ⟨true, "", some 45, false⟩ none none ("tab_a") 5000 ∧
    ((configureFromPage ⟨some ("timer:train:dashboard"),
        some ⟨100, true, some 10000, 5400, true, 0, false, "compact", false, none⟩,
        false, true, 0, 0⟩
      ⟨true, "", some 60, false⟩ none none ("tab_a") 5000).tab.state.getD
        (buildInitialState 0 0)).endAt = some 10000 ∧
    ((configureFromPage ⟨some ("timer:train:dashboard"),
        some ⟨100, true, some 10000, 5400, true, 0, false, "compact", false, none⟩,
        false, true, 0, 0⟩
      ⟨true, "", some 60, false⟩ none none ("tab_a") 5000).tab.state.getD
        (buildInitialState 0 0)).defaultSeconds = 5400 ∧
    ((configureFromPage ⟨some ("timer:train:dashboard"),
        some ⟨100, true, some 10000, 5400, true, 0, false, "compact", false, none⟩,
        false, true, 0, 0⟩
      ⟨true, "", some 60, false⟩ none none ("tab_a") 5000).tab.state.getD
        (buildInitialState 0 0)).remaining =
      computeRemainingFromEndAt (some 10000) 5000 := by
  have h := claim_c5_amended ⟨some ("timer:train:dashboard"),
      some ⟨100, true, some 10000, 5400, true, 0, false, "compact", false, none⟩,
      false, true, 0, 0⟩
    ⟨true, "", some 60, false⟩ (some 60) (some 45) none none ("tab_a") 5000
    ⟨100, true, some 10000, 5400, true, 0, false, "compact", false, none⟩ 10000
    rfl rfl rfl rfl rfl rfl (by decide) (by decide) (by decide)
  exact ⟨h.1, h.2.1, h.2.2.1, h.2.2.2.2⟩

/-- Claim C8: on a drag release with real movement the widget snaps to
the corner anchor nearest (by Euclidean distance, here compared through
its square) to the current position, and persists that corner together
with the offset from the anchor; in the spec's example — position
(780, 10), size 300×80, viewport 1024×768, padding 12 — the top-right
anchor is (712, 12), its squared distance 4628 lies between 68² and 69²
(distance ≈ 68, nearer than every other anchor), and the persisted record
is the top-right corner with offset (68, −2). -/
theorem claim_c8 :
    (∀ left top w h vw vh : Int,
      (∀ c : Corner,
        dist2 left top (anchorOf (getCornerAnchors w h vw vh)
            (snapToCorner left top w h vw vh).corner) ≤
          dist2 left top (anchorOf (getCornerAnchors w h vw vh) c)) ∧
      (snapToCorner left top w h vw vh).offsetX =
        left - (anchorOf (getCornerAnchors w h vw vh)
          (snapToCorner left top w h vw vh).corner).1 ∧
      (snapToCorner left top w h vw vh).offsetY =
        top - (anchorOf (getCornerAnchors w h vw vh)
          (snapToCorner left top w h vw vh).corner).2) ∧
    (getCornerAnchors 300 80 1024 768).tr = (712, 12) ∧
    snapToCorner 780 10 300 80 1024 768 = ⟨.tr, 780, 10, 68, -2⟩ ∧
    dist2 780 10 (712, 12) = 4628 ∧ (68 : Int) * 68 ≤ 4628 ∧ (4628 : Int) < 69 * 69 ∧
    dragEndPersistedPos true 780 10 300 80 1024 768 = some ⟨.tr, 68, -2⟩ := by
  refine ⟨?_, by decide, by decide, by decide, by decide, by decide, by decide⟩
  intro left top w h vw vh
  rw [snapToCorner]
  dsimp only
  split_ifs <;>
    refine ⟨fun c => ?_, rfl, rfl⟩ <;>
    cases c <;>
    dsimp only [anchorOf] <;>
    omega

end FT
